import Mathlib

/-!
Shallow embedding of the cloudflare-auth-worker service: the ChallengeStorage
and TunnelStorage Durable Objects, the worker entry points of `src/index.ts`
(`/verify`, `/tunnel/register`), and the helpers of `src/utils.ts` and
`src/auth.ts` (`extractSecrets`, `generateJWT`, `verifySignature`).
Timestamps (`Date.now()`) are modelled as `Nat` milliseconds; the host crypto
primitives (`crypto.subtle.verify`, HMAC) are abstract function parameters;
JSON bodies are structures mirroring the parsed fields.
-/

namespace CloudflareAuthWorker

/-- One stored challenge entry, as put by the ChallengeStorage Durable Object
`/store` handler: `storage.put(clientId, { challenge, expiresAt })`. -/
structure ChallengeData where
  challenge : String
  expiresAt : Nat
deriving DecidableEq, Repr

/-- ChallengeStorage `/store`: overwrites the entry for the client. -/
def challengeStoreOp (challenge : String) (expiresAt : Nat)
    (_ : Option ChallengeData) : Option ChallengeData :=
  some { challenge := challenge, expiresAt := expiresAt }

/-- ChallengeStorage `/get/:clientId`: returns the entry (404 when absent). -/
def challengeGetOp (st : Option ChallengeData) : Option ChallengeData := st

/-- ChallengeStorage `/delete/:clientId`: unconditionally deletes the entry. -/
def challengeDeleteOp (_ : Option ChallengeData) : Option ChallengeData := none

/-- Outcome of one `POST /verify` request, keeping the internal cause that the
handler logs; every non-success cause other than the missing-field check is
surfaced to the caller as HTTP 401 `Authentication failed`. -/
inductive VerifyOutcome where
  | badRequest
  | notFound
  | expired
  | mismatch
  | noPublicKey
  | badSignature
  | success
deriving DecidableEq, Repr

/-- HTTP status the `/verify` handler returns for each outcome. -/
def VerifyOutcome.httpStatus : VerifyOutcome → Nat
  | VerifyOutcome.success => 200
  | VerifyOutcome.badRequest => 400
  | _ => 401

/-- The `POST /verify` handler of `src/index.ts`, restricted to the state it
touches: the challenge entry of the one client named in the request. Missing
JSON fields are the empty string (JS falsy test `!clientId` and friends).
`keyPresent` is whether `AUTHORIZED_CLIENTS` maps the client to a public key;
`sigValid` is the result of `verifySignature` (host RSA crypto). The handler
follows the source order: get, expiry check (deleting when expired), challenge
comparison (no delete on mismatch), key lookup, signature check (no delete on
failure), then the single-use delete and success. -/
def verifyHandler (st : Option ChallengeData) (clientId challenge signature : String)
    (keyPresent sigValid : Bool) (now : Nat) : Option ChallengeData × VerifyOutcome :=
  if clientId = "" ∨ challenge = "" ∨ signature = "" then
    (st, VerifyOutcome.badRequest)
  else
    match challengeGetOp st with
    | none => (st, VerifyOutcome.notFound)
    | some stored =>
      if now > stored.expiresAt then
        (challengeDeleteOp st, VerifyOutcome.expired)
      else if stored.challenge ≠ challenge then
        (st, VerifyOutcome.mismatch)
      else if keyPresent = false then
        (st, VerifyOutcome.noPublicKey)
      else if sigValid = false then
        (st, VerifyOutcome.badSignature)
      else
        (challengeDeleteOp st, VerifyOutcome.success)

/-- Progress of one in-flight `/verify` request, split at its atomic Durable
Object storage operations: the initial `/get` fetch and the final `/delete`
fetch are separate requests to the ChallengeStorage object, with the expiry,
comparison and signature checks running in the worker on the copy obtained by
the get. -/
inductive ReqPhase where
  | start
  | afterGet (data : Option ChallengeData)
  | done (outcome : VerifyOutcome)
deriving DecidableEq, Repr

/-- One atomic step of an in-flight `/verify` request against the shared
ChallengeStorage state: from `start` it performs the get; from `afterGet` it
runs the worker-local checks on its fetched copy and, on the expired or
success path, performs the delete against the current shared state. -/
def reqStep (clientId challenge signature : String) (keyPresent sigValid : Bool)
    (now : Nat) (ph : ReqPhase) (st : Option ChallengeData) :
    ReqPhase × Option ChallengeData :=
  match ph with
  | ReqPhase.start =>
    if clientId = "" ∨ challenge = "" ∨ signature = "" then
      (ReqPhase.done VerifyOutcome.badRequest, st)
    else
      (ReqPhase.afterGet (challengeGetOp st), st)
  | ReqPhase.afterGet none => (ReqPhase.done VerifyOutcome.notFound, st)
  | ReqPhase.afterGet (some stored) =>
    if now > stored.expiresAt then
      (ReqPhase.done VerifyOutcome.expired, challengeDeleteOp st)
    else if stored.challenge ≠ challenge then
      (ReqPhase.done VerifyOutcome.mismatch, st)
    else if keyPresent = false then
      (ReqPhase.done VerifyOutcome.noPublicKey, st)
    else if sigValid = false then
      (ReqPhase.done VerifyOutcome.badSignature, st)
    else
      (ReqPhase.done VerifyOutcome.success, challengeDeleteOp st)
  | ReqPhase.done o => (ReqPhase.done o, st)

/-- Interleaved execution of two `/verify` requests that carry the same
(valid) fields for the same client: the schedule says which request takes the
next atomic step (`true` for the first request). -/
def runTwo (clientId challenge signature : String) (keyPresent sigValid : Bool)
    (now : Nat) :
    List Bool → ReqPhase × ReqPhase × Option ChallengeData →
    ReqPhase × ReqPhase × Option ChallengeData
  | [], s => s
  | true :: rest, (a, b, st) =>
    let r := reqStep clientId challenge signature keyPresent sigValid now a st
    runTwo clientId challenge signature keyPresent sigValid now rest (r.1, b, r.2)
  | false :: rest, (a, b, st) =>
    let r := reqStep clientId challenge signature keyPresent sigValid now b st
    runTwo clientId challenge signature keyPresent sigValid now rest (a, r.1, r.2)

/-- The record the TunnelStorage Durable Object stores at key
`tunnel:clientId`. The source interface (`TunnelInfo` in tunnel-storage)
declares exactly these four fields; in particular it has no `token` field. -/
structure TunnelInfo where
  clientId : String
  tunnelUrl : String
  updatedAt : Nat
  createdAt : Nat
deriving DecidableEq, Repr

/-- JS property access `record.token` on a stored/serialized `TunnelInfo`
value: the interface has no `token` field and the `/store` handler never
writes one, so the access yields `undefined`, modelled as `none`. -/
def TunnelInfo.tokenField (_ : TunnelInfo) : Option String := none

/-- Body of a `POST /store` request to TunnelStorage. Callers (the `/verify`
and `/tunnel/register` handlers in `src/index.ts`) send
`{ clientId, tunnelUrl, token }`; the handler's JSON destructuring reads only
`clientId` and `tunnelUrl`, so `token` is carried here but never consumed. -/
structure StoreBody where
  clientId : String
  tunnelUrl : String
  token : Option String
deriving DecidableEq, Repr

/-- Result of the TunnelStorage `/store` handler. -/
inductive StoreResult where
  | badRequest
  | ok (info : TunnelInfo)
deriving DecidableEq, Repr

/-- TunnelStorage `/store` handler, on the storage entry of the client named
in the body: builds `{ clientId, tunnelUrl, updatedAt := now, createdAt :=
existing?.createdAt || now }` and puts it. The JS `||` falls through to `now`
both when no record exists and when the existing `createdAt` is falsy (0). -/
def tunnelStoreHandler (st : Option TunnelInfo) (body : StoreBody) (now : Nat) :
    Option TunnelInfo × StoreResult :=
  if body.clientId = "" ∨ body.tunnelUrl = "" then
    (st, StoreResult.badRequest)
  else
    let info : TunnelInfo :=
      { clientId := body.clientId
      , tunnelUrl := body.tunnelUrl
      , updatedAt := now
      , createdAt :=
          match st with
          | some existing => if existing.createdAt = 0 then now else existing.createdAt
          | none => now }
    (some info, StoreResult.ok info)

/-- TunnelStorage `/get/{clientId}` handler: the stored record, 404 when
absent. -/
def tunnelGetHandler (st : Option TunnelInfo) : Option TunnelInfo := st

/-- Result of the worker `POST /tunnel/register` handler. -/
inductive RegisterResult where
  | badRequest
  | authFailed
  | storeFailed
  | ok (info : TunnelInfo)
deriving DecidableEq, Repr

/-- The `POST /tunnel/register` handler of `src/index.ts`, on the tunnel entry
of the named client: missing fields give 400; a missing record gives 401; then
it compares the presented token with `existingData.data.token` — the `token`
property of the stored record, which does not exist (`TunnelInfo.tokenField`)
— and a mismatch gives 401; otherwise it stores and returns the update. -/
def tunnelRegisterHandler (st : Option TunnelInfo) (clientId tunnelUrl token : String)
    (now : Nat) : Option TunnelInfo × RegisterResult :=
  if clientId = "" ∨ tunnelUrl = "" ∨ token = "" then
    (st, RegisterResult.badRequest)
  else
    match tunnelGetHandler st with
    | none => (st, RegisterResult.authFailed)
    | some existing =>
      if existing.tokenField ≠ some token then
        (st, RegisterResult.authFailed)
      else
        match tunnelStoreHandler st { clientId := clientId, tunnelUrl := tunnelUrl, token := some token } now with
        | (st2, StoreResult.ok info) => (st2, RegisterResult.ok info)
        | (st2, _) => (st2, RegisterResult.storeFailed)

/-- Value of one base64 alphabet character, `none` outside the alphabet. -/
def base64Digit (c : Char) : Option Nat :=
  if 'A' ≤ c ∧ c ≤ 'Z' then some (c.toNat - 'A'.toNat)
  else if 'a' ≤ c ∧ c ≤ 'z' then some (c.toNat - 'a'.toNat + 26)
  else if '0' ≤ c ∧ c ≤ '9' then some (c.toNat - '0'.toNat + 52)
  else if c = '+' then some 62
  else if c = '/' then some 63
  else none

/-- Bit-accumulating base64 decode of a validated character list. -/
def b64decodeCore : List Char → Nat → Nat → List Nat → Option (List Nat)
  | [], _, _, acc => some acc.reverse
  | c :: rest, buffer, bits, acc =>
    match base64Digit c with
    | none => none
    | some d =>
      let buffer2 := buffer * 64 + d
      let bits2 := bits + 6
      if 8 ≤ bits2 then
        b64decodeCore rest (buffer2 % 2 ^ (bits2 - 8)) (bits2 - 8)
          (buffer2 / 2 ^ (bits2 - 8) :: acc)
      else
        b64decodeCore rest buffer2 bits2 acc

/-- Drops up to two trailing padding characters. -/
def dropTrailingEq (cs : List Char) : List Char :=
  let cs1 := if cs.getLast? = some '=' then cs.dropLast else cs
  if cs1.getLast? = some '=' then cs1.dropLast else cs1

/-- The JS `atob` (forgiving-base64 decode): strip ASCII whitespace, strip up
to two trailing `=` when the length is a multiple of 4, then fail
(`InvalidCharacterError`, modelled as `none`) when the remaining length is
1 mod 4 or any character is outside the base64 alphabet; otherwise decode to
bytes. -/
def atob (s : String) : Option (List Nat) :=
  let cs := s.toList.filter fun c =>
    ¬ (c = ' ' ∨ c = '\t' ∨ c = '\n' ∨ c = '\r' ∨ c = '\x0c')
  let cs2 := if cs.length % 4 = 0 then dropTrailingEq cs else cs
  if cs2.length % 4 = 1 then none
  else if cs2.any fun c => (base64Digit c).isNone then none
  else b64decodeCore cs2 0 0 []

/-- UTF-8 bytes of a string (`new TextEncoder().encode(challenge)`). -/
def utf8Bytes (s : String) : List Nat :=
  s.toUTF8.toList.map fun b => b.toNat

/-- Body of `verifySignature` in `src/auth.ts` before the surrounding
`try`/`catch`: base64-decode the signature (`atob` throws on malformed
input), UTF-8-encode the challenge, and call `crypto.subtle.verify`. The key
type and the host RSASSA-PKCS1-v1_5 primitive are parameters; the primitive is
`Except`-valued because `crypto.subtle.verify` may itself reject. -/
def verifySignatureBody {K : Type} (subtleVerify : K → List Nat → List Nat → Except String Bool)
    (publicKey : K) (challenge signature : String) : Except String Bool :=
  match atob signature with
  | none => Except.error "InvalidCharacterError"
  | some signatureBytes => subtleVerify publicKey signatureBytes (utf8Bytes challenge)

/-- `verifySignature` of `src/auth.ts`: the body wrapped in `try`/`catch`,
with every thrown error mapped to `false`. -/
def verifySignature {K : Type} (subtleVerify : K → List Nat → List Nat → Except String Bool)
    (publicKey : K) (challenge signature : String) : Bool :=
  match verifySignatureBody subtleVerify publicKey challenge signature with
  | Except.ok b => b
  | Except.error _ => false

/-- A runtime environment value: a string var/secret, or a non-string binding
(Durable Object namespace or service binding). -/
inductive EnvVal where
  | str (s : String)
  | binding
deriving DecidableEq, Repr

/-- The worker environment, as the key/value entries of the `env` object. -/
abbrev WorkerEnv := List (String × EnvVal)

/-- JS property lookup `env[key]`. -/
def lookupEnv : WorkerEnv → String → Option EnvVal
  | [], _ => none
  | (k, v) :: rest, key => if k = key then some v else lookupEnv rest key

/-- The `excludeKeys` list of `extractSecrets` in `src/utils.ts`. -/
def excludeKeys : List String := ["AUTHORIZED_CLIENTS", "CHALLENGE_STORAGE"]

/-- `extractSecrets` of `src/utils.ts`: for each key of `env`, include the
entry when the key is not in `excludeKeys` and the value is a string. -/
def extractSecrets (env : WorkerEnv) : List (String × String) :=
  env.filterMap fun kv =>
    if kv.1 ∈ excludeKeys then none
    else
      match kv.2 with
      | EnvVal.str s => some (kv.1, s)
      | EnvVal.binding => none

/-- The JWT secret chosen by the `/verify` handler:
`typeof env.SECRET_DATA === 'string' ? env.SECRET_DATA : 'default-secret'`. -/
def jwtSecretOf (env : WorkerEnv) : String :=
  match lookupEnv env "SECRET_DATA" with
  | some (EnvVal.str s) => s
  | _ => "default-secret"

/-- `generateJWT` of `src/auth.ts`: base64url-encoded header and payload
joined with a dot, then the base64url HMAC-SHA256 signature of that data under
`secretKey` appended after another dot. JSON/base64url encoding of the fixed
header and of the `{clientId, iat, exp}` payload is the parameter `encodeHP`
(a function of the claim inputs), and the host HMAC primitive is the
parameter `hmacSig` (secret, data → base64url signature). -/
def generateJWT (encodeHP : String → Nat → String) (hmacSig : String → String → String)
    (clientId secretKey : String) (nowSec : Nat) : String :=
  let data := encodeHP clientId nowSec
  data ++ "." ++ hmacSig secretKey data

/-- The success response body of `POST /verify`: the compact JWT signed with
`jwtSecretOf env`, the random opaque access token, and `extractSecrets env`. -/
structure VerifyResponse where
  token : String
  accessToken : String
  secretData : List (String × String)
deriving DecidableEq, Repr

/-- Assembly of the `/verify` success response in `src/index.ts`. -/
def verifySuccessResponse (encodeHP : String → Nat → String)
    (hmacSig : String → String → String) (env : WorkerEnv) (clientId : String)
    (nowSec : Nat) (accessToken : String) : VerifyResponse :=
  { token := generateJWT encodeHP hmacSig clientId (jwtSecretOf env) nowSec
  , accessToken := accessToken
  , secretData := extractSecrets env }

/-- C1: the TunnelStorage `/store` handler is claimed to write a record whose
`token` field is the token supplied in the request, so that a fetch returns
the most recently supplied token. Evaluating the code: storing with token
`"tok1"` writes a record with no `token` field at all, and the fetched
record's `token` property is `undefined`, not `"tok1"`. -/
theorem tunnelStore_drops_token :
    (tunnelStoreHandler none
        { clientId := "c1", tunnelUrl := "https://t.example", token := some "tok1" }
        1000).1
      = some { clientId := "c1", tunnelUrl := "https://t.example", updatedAt := 1000, createdAt := 1000 }
    ∧ tunnelGetHandler (tunnelStoreHandler none
        { clientId := "c1", tunnelUrl := "https://t.example", token := some "tok1" }
        1000).1
      = some { clientId := "c1", tunnelUrl := "https://t.example", updatedAt := 1000, createdAt := 1000 }
    ∧ TunnelInfo.tokenField
        { clientId := "c1", tunnelUrl := "https://t.example", updatedAt := 1000, createdAt := 1000 }
      ≠ some "tok1" := by
  refine ⟨rfl, rfl, ?_⟩
  simp [TunnelInfo.tokenField]

/-- C2: re-registration through `POST /tunnel/register` is claimed to succeed
when the presented token matches the stored one. In the code, the stored
record never carries a token (`TunnelInfo.tokenField` is `undefined`), so the
comparison `existingData.data.token !== token` is true for every presented
token and the handler always answers 400 or 401, never updating the record:
re-registration can never succeed. -/
theorem tunnelRegister_always_rejects (st : Option TunnelInfo)
    (clientId tunnelUrl token : String) (now : Nat) :
    (tunnelRegisterHandler st clientId tunnelUrl token now).1 = st
    ∧ ((tunnelRegisterHandler st clientId tunnelUrl token now).2 = RegisterResult.badRequest
      ∨ (tunnelRegisterHandler st clientId tunnelUrl token now).2 = RegisterResult.authFailed) := by
  cases st with
  | none =>
    by_cases h : clientId = "" ∨ tunnelUrl = "" ∨ token = "" <;>
      simp [tunnelRegisterHandler, tunnelGetHandler, h]
  | some existing =>
    by_cases h : clientId = "" ∨ tunnelUrl = "" ∨ token = "" <;>
      simp [tunnelRegisterHandler, tunnelGetHandler, TunnelInfo.tokenField, h]

/-- C3 counterexample: a `/verify` request that finds a stored, unexpired
challenge but presents a different value ends with the entry still stored —
consumption is not unconditional once the entry is fetched. -/
theorem verify_mismatch_entry_survives :
    verifyHandler (some { challenge := "abc", expiresAt := 100 }) "c1" "wrong" "sig" true true 50
      = (some { challenge := "abc", expiresAt := 100 }, VerifyOutcome.mismatch)
    ∧ (verifyHandler (some { challenge := "abc", expiresAt := 100 }) "c1" "wrong" "sig" true true 50).1
      ≠ none := by
  refine ⟨rfl, by decide⟩

/-- C3 amended: once a `/verify` request has fetched a stored challenge entry
(and passed the field check), the entry is deleted by the end of the request
exactly when the request ends as `expired` or as a full success; on challenge
mismatch, missing public key, or signature failure the entry is retained. -/
theorem verify_deletion_iff_expired_or_success
    (stored : ChallengeData) (clientId presented signature : String)
    (keyPresent sigValid : Bool) (now : Nat)
    (hcid : clientId ≠ "") (hpres : presented ≠ "") (hsig : signature ≠ "") :
    (verifyHandler (some stored) clientId presented signature keyPresent sigValid now).1 = none
      ↔ ((verifyHandler (some stored) clientId presented signature keyPresent sigValid now).2
            = VerifyOutcome.expired
        ∨ (verifyHandler (some stored) clientId presented signature keyPresent sigValid now).2
            = VerifyOutcome.success) := by
  have hfields : ¬ (clientId = "" ∨ presented = "" ∨ signature = "") := by
    simp [hcid, hpres, hsig]
  cases keyPresent <;> cases sigValid <;>
    by_cases h1 : now > stored.expiresAt <;>
    by_cases h2 : stored.challenge = presented <;>
    simp [verifyHandler, if_neg hfields, challengeGetOp, challengeDeleteOp, h1, h2]

/-- Closed witness for the amended C3 statement at a concrete mismatch
input. -/
theorem verify_deletion_iff_expired_or_success_witness :
    ((verifyHandler (some { challenge := "abc", expiresAt := 100 }) "c1" "wrong" "sig" true true 50).1
        = none
      ↔ ((verifyHandler (some { challenge := "abc", expiresAt := 100 }) "c1" "wrong" "sig" true true 50).2
            = VerifyOutcome.expired
        ∨ (verifyHandler (some { challenge := "abc", expiresAt := 100 }) "c1" "wrong" "sig" true true 50).2
            = VerifyOutcome.success)) :=
  verify_deletion_iff_expired_or_success { challenge := "abc", expiresAt := 100 }
    "c1" "wrong" "sig" true true 50 (by decide) (by decide) (by decide)

/-- C6: a `/verify` request that finds a stored entry whose `expiresAt` lies
strictly in the past deletes the entry and answers `Authentication failed`
(HTTP 401), for every presented challenge value — matching or not. -/
theorem verify_expired_deletes
    (stored : ChallengeData) (clientId presented signature : String)
    (keyPresent sigValid : Bool) (now : Nat)
    (hcid : clientId ≠ "") (hpres : presented ≠ "") (hsig : signature ≠ "")
    (hexp : now > stored.expiresAt) :
    verifyHandler (some stored) clientId presented signature keyPresent sigValid now
      = (none, VerifyOutcome.expired)
    ∧ VerifyOutcome.expired.httpStatus = 401 := by
  have hfields : ¬ (clientId = "" ∨ presented = "" ∨ signature = "") := by
    simp [hcid, hpres, hsig]
  refine ⟨?_, rfl⟩
  simp [verifyHandler, if_neg hfields, challengeGetOp, challengeDeleteOp, hexp]

/-- Closed witness for C6: an expired entry is deleted even though the
presented value matches the stored one. -/
theorem verify_expired_deletes_witness :
    verifyHandler (some { challenge := "abc", expiresAt := 100 }) "c1" "abc" "sig" true true 200
      = (none, VerifyOutcome.expired)
    ∧ VerifyOutcome.expired.httpStatus = 401 :=
  verify_expired_deletes { challenge := "abc", expiresAt := 100 } "c1" "abc" "sig" true true 200
    (by decide) (by decide) (by decide) (by decide)

/-- C7: the claim says at most one of two concurrent `/verify` requests with
the same valid challenge and signature can succeed. The challenge get and the
single-use delete are separate requests to the ChallengeStorage Durable
Object, with the checks running in the worker in between, so the interleaving
get-get-delete-delete lets both requests pass every check and both answer
success; only fully serial execution (second conjunct) gives one success and
one `notFound`. -/
theorem concurrent_verify_double_success :
    runTwo "c1" "abc" "sig" true true 50 [true, false, true, false]
        (ReqPhase.start, ReqPhase.start, some { challenge := "abc", expiresAt := 100 })
      = (ReqPhase.done VerifyOutcome.success, ReqPhase.done VerifyOutcome.success, none)
    ∧ runTwo "c1" "abc" "sig" true true 50 [true, true, false, false]
        (ReqPhase.start, ReqPhase.start, some { challenge := "abc", expiresAt := 100 })
      = (ReqPhase.done VerifyOutcome.success, ReqPhase.done VerifyOutcome.notFound, none) :=
  ⟨rfl, rfl⟩

/-- C4: a `/verify` consume that finds an unexpired stored entry but presents
a different value answers `mismatch` (HTTP 401) and leaves the entry in
place, and a subsequent attempt on the resulting state with the correct value
before expiry (and a valid key and signature) succeeds. -/
theorem verify_mismatch_preserves_challenge
    (stored : ChallengeData) (clientId presented signature signature2 : String)
    (keyPresent sigValid : Bool) (now now2 : Nat)
    (hcid : clientId ≠ "") (hpres : presented ≠ "") (hsig : signature ≠ "")
    (hsig2 : signature2 ≠ "") (hch : stored.challenge ≠ "")
    (hexp : ¬ now > stored.expiresAt) (hne : stored.challenge ≠ presented)
    (hexp2 : ¬ now2 > stored.expiresAt) :
    verifyHandler (some stored) clientId presented signature keyPresent sigValid now
      = (some stored, VerifyOutcome.mismatch)
    ∧ VerifyOutcome.mismatch.httpStatus = 401
    ∧ (verifyHandler
        (verifyHandler (some stored) clientId presented signature keyPresent sigValid now).1
        clientId stored.challenge signature2 true true now2)
      = (none, VerifyOutcome.success) := by
  have hfields : ¬ (clientId = "" ∨ presented = "" ∨ signature = "") := by
    simp [hcid, hpres, hsig]
  have hfields2 : ¬ (clientId = "" ∨ stored.challenge = "" ∨ signature2 = "") := by
    simp [hcid, hch, hsig2]
  have h1 : verifyHandler (some stored) clientId presented signature keyPresent sigValid now
      = (some stored, VerifyOutcome.mismatch) := by
    simp [verifyHandler, if_neg hfields, challengeGetOp, hexp, hne]
  refine ⟨h1, rfl, ?_⟩
  rw [h1]
  simp [verifyHandler, if_neg hfields2, challengeGetOp, challengeDeleteOp, hexp2]

/-- Closed witness for C4 at a concrete mismatch followed by a correct
retry. -/
theorem verify_mismatch_preserves_challenge_witness :
    verifyHandler (some { challenge := "abc", expiresAt := 100 }) "c1" "wrong" "sig" false false 50
      = (some { challenge := "abc", expiresAt := 100 }, VerifyOutcome.mismatch)
    ∧ VerifyOutcome.mismatch.httpStatus = 401
    ∧ (verifyHandler
        (verifyHandler (some { challenge := "abc", expiresAt := 100 }) "c1" "wrong" "sig" false false 50).1
        "c1" "abc" "sig2" true true 60)
      = (none, VerifyOutcome.success) := by
  have h := verify_mismatch_preserves_challenge { challenge := "abc", expiresAt := 100 }
    "c1" "wrong" "sig" "sig2" false false 50 60
    (by decide) (by decide) (by decide) (by decide) (by decide) (by decide) (by decide) (by decide)
  exact h

/-- C5: a `/verify` that succeeds end to end deletes the entry, and a second
consume with the same correct challenge value on the resulting state answers
`notFound`, surfaced as HTTP 401: the challenge is single-use. -/
theorem verify_challenge_single_use
    (stored : ChallengeData) (clientId signature signature2 : String)
    (keyPresent2 sigValid2 : Bool) (now now2 : Nat)
    (hcid : clientId ≠ "") (hch : stored.challenge ≠ "")
    (hsig : signature ≠ "") (hsig2 : signature2 ≠ "")
    (hexp : ¬ now > stored.expiresAt) :
    verifyHandler (some stored) clientId stored.challenge signature true true now
      = (none, VerifyOutcome.success)
    ∧ (verifyHandler
        (verifyHandler (some stored) clientId stored.challenge signature true true now).1
        clientId stored.challenge signature2 keyPresent2 sigValid2 now2)
      = (none, VerifyOutcome.notFound)
    ∧ VerifyOutcome.notFound.httpStatus = 401 := by
  have hfields : ¬ (clientId = "" ∨ stored.challenge = "" ∨ signature = "") := by
    simp [hcid, hch, hsig]
  have hfields2 : ¬ (clientId = "" ∨ stored.challenge = "" ∨ signature2 = "") := by
    simp [hcid, hch, hsig2]
  have h1 : verifyHandler (some stored) clientId stored.challenge signature true true now
      = (none, VerifyOutcome.success) := by
    simp [verifyHandler, if_neg hfields, challengeGetOp, challengeDeleteOp, hexp]
  refine ⟨h1, ?_, rfl⟩
  rw [h1]
  simp [verifyHandler, if_neg hfields2, challengeGetOp]

/-- Closed witness for C5 at a concrete success followed by a replay. -/
theorem verify_challenge_single_use_witness :
    verifyHandler (some { challenge := "abc", expiresAt := 100 }) "c1" "abc" "sig" true true 50
      = (none, VerifyOutcome.success)
    ∧ (verifyHandler
        (verifyHandler (some { challenge := "abc", expiresAt := 100 }) "c1" "abc" "sig" true true 50).1
        "c1" "abc" "sig" true true 60)
      = (none, VerifyOutcome.notFound)
    ∧ VerifyOutcome.notFound.httpStatus = 401 := by
  have h := verify_challenge_single_use { challenge := "abc", expiresAt := 100 }
    "c1" "sig" "sig" true true 50 60 (by decide) (by decide) (by decide) (by decide) (by decide)
  exact h

/-- C8: storing over an existing tunnel record (with any supplied token, which
the handler ignores) keeps `createdAt` — for every record whose `createdAt` is
a real timestamp, i.e. nonzero — sets `updatedAt` to the write time, and an
immediately following fetch returns a record whose URL is the one just
stored. -/
theorem tunnelStore_preserves_createdAt
    (existing : TunnelInfo) (clientId url2 : String) (token : Option String) (now2 : Nat)
    (hcid : clientId ≠ "") (hurl : url2 ≠ "") (_hdiff : url2 ≠ existing.tunnelUrl)
    (hc : existing.createdAt ≠ 0) :
    tunnelStoreHandler (some existing) { clientId := clientId, tunnelUrl := url2, token := token } now2
      = (some { clientId := clientId, tunnelUrl := url2, updatedAt := now2, createdAt := existing.createdAt },
         StoreResult.ok { clientId := clientId, tunnelUrl := url2, updatedAt := now2, createdAt := existing.createdAt })
    ∧ tunnelGetHandler (tunnelStoreHandler (some existing)
          { clientId := clientId, tunnelUrl := url2, token := token } now2).1
      = some { clientId := clientId, tunnelUrl := url2, updatedAt := now2, createdAt := existing.createdAt } := by
  have hfields : ¬ (clientId = "" ∨ url2 = "") := by simp [hcid, hurl]
  constructor
  · simp [tunnelStoreHandler, if_neg hfields, hc]
  · simp [tunnelStoreHandler, tunnelGetHandler, if_neg hfields, hc]

/-- Closed witness for C8 at a concrete update of an existing record. -/
theorem tunnelStore_preserves_createdAt_witness :
    tunnelStoreHandler
        (some { clientId := "c1", tunnelUrl := "https://old.example", updatedAt := 1000, createdAt := 1000 })
        { clientId := "c1", tunnelUrl := "https://new.example", token := some "tok1" } 2000
      = (some { clientId := "c1", tunnelUrl := "https://new.example", updatedAt := 2000, createdAt := 1000 },
         StoreResult.ok { clientId := "c1", tunnelUrl := "https://new.example", updatedAt := 2000, createdAt := 1000 })
    ∧ tunnelGetHandler (tunnelStoreHandler
          (some { clientId := "c1", tunnelUrl := "https://old.example", updatedAt := 1000, createdAt := 1000 })
          { clientId := "c1", tunnelUrl := "https://new.example", token := some "tok1" } 2000).1
      = some { clientId := "c1", tunnelUrl := "https://new.example", updatedAt := 2000, createdAt := 1000 } := by
  have h := tunnelStore_preserves_createdAt
    { clientId := "c1", tunnelUrl := "https://old.example", updatedAt := 1000, createdAt := 1000 }
    "c1" "https://new.example" (some "tok1") 2000 (by decide) (by decide) (by decide) (by decide)
  exact h

/-- C9: `verifySignature` never propagates an exception: whenever its
uncaught body throws (malformed base64 signature, or a rejection from the
host RSA primitive) the caught function returns `false`, and whenever the
body returns a boolean the caught function returns that boolean — so for
every key, challenge and signature the result is a plain boolean. -/
theorem verifySignature_never_throws {K : Type}
    (subtleVerify : K → List Nat → List Nat → Except String Bool) (publicKey : K)
    (challenge signature : String) :
    (∀ e, verifySignatureBody subtleVerify publicKey challenge signature = Except.error e →
      verifySignature subtleVerify publicKey challenge signature = false)
    ∧ (∀ b, verifySignatureBody subtleVerify publicKey challenge signature = Except.ok b →
      verifySignature subtleVerify publicKey challenge signature = b) := by
  constructor <;> intro x h <;> simp [verifySignature, h]

/-- Closed witness for C9: on the malformed base64 signature string, the body
throws `InvalidCharacterError` and the caught function returns `false`. -/
theorem verifySignature_never_throws_witness :
    verifySignatureBody (fun (_ : Unit) _ _ => Except.ok true) () "abc" "@@@"
      = Except.error "InvalidCharacterError"
    ∧ verifySignature (fun (_ : Unit) _ _ => Except.ok true) () "abc" "@@@" = false :=
  ⟨rfl, (verifySignature_never_throws (fun (_ : Unit) _ _ => Except.ok true) () "abc" "@@@").1
    "InvalidCharacterError" rfl⟩

/-- Membership in `extractSecrets`: exactly the string-valued entries whose
key is not excluded. -/
theorem mem_extractSecrets (env : WorkerEnv) (k v : String) :
    (k, v) ∈ extractSecrets env
      ↔ ((k, EnvVal.str v) ∈ env ∧ k ≠ "AUTHORIZED_CLIENTS" ∧ k ≠ "CHALLENGE_STORAGE") := by
  unfold extractSecrets
  rw [List.mem_filterMap]
  constructor
  · rintro ⟨⟨k2, v2⟩, hmem, hf⟩
    by_cases hex : k2 ∈ excludeKeys
    · simp [hex] at hf
    · cases v2 with
      | str s =>
        simp only [hex, if_false, ite_false, if_neg hex, Option.some.injEq, Prod.mk.injEq] at hf
        obtain ⟨hk, hv⟩ := hf
        subst hk
        subst hv
        refine ⟨hmem, ?_, ?_⟩
        · intro h; exact hex (by simp [excludeKeys, h])
        · intro h; exact hex (by simp [excludeKeys, h])
      | binding => simp [hex] at hf
  · rintro ⟨hmem, h1, h2⟩
    refine ⟨(k, EnvVal.str v), hmem, ?_⟩
    have hex : k ∉ excludeKeys := by simp [excludeKeys, h1, h2]
    simp [hex]

/-- Property lookup implies membership. -/
theorem lookupEnv_mem (env : WorkerEnv) (k : String) (v : EnvVal)
    (h : lookupEnv env k = some v) : (k, v) ∈ env := by
  induction env with
  | nil => cases h
  | cons hd tl ih =>
    obtain ⟨k2, v2⟩ := hd
    by_cases hk : k2 = k
    · subst hk
      simp [lookupEnv] at h
      simp [h]
    · simp [lookupEnv, hk] at h
      exact List.mem_cons.mpr (Or.inr (ih h))

/-- C10: `secretData` in the `/verify` success response holds exactly the
environment entries whose value is a string and whose key is neither
`AUTHORIZED_CLIENTS` nor `CHALLENGE_STORAGE`; and when `SECRET_DATA` is set
(as a string) it appears in `secretData` and is also the secret the compact
token in the same response is HMAC-signed with. -/
theorem extractSecrets_exact_and_jwt_secret
    (env : WorkerEnv) (k v s : String)
    (encodeHP : String → Nat → String) (hmacSig : String → String → String)
    (clientId : String) (nowSec : Nat) (accessToken : String) :
    ((k, v) ∈ (verifySuccessResponse encodeHP hmacSig env clientId nowSec accessToken).secretData
      ↔ ((k, EnvVal.str v) ∈ env ∧ k ≠ "AUTHORIZED_CLIENTS" ∧ k ≠ "CHALLENGE_STORAGE"))
    ∧ (lookupEnv env "SECRET_DATA" = some (EnvVal.str s) →
        ("SECRET_DATA", s) ∈ (verifySuccessResponse encodeHP hmacSig env clientId nowSec accessToken).secretData
        ∧ (verifySuccessResponse encodeHP hmacSig env clientId nowSec accessToken).token
            = encodeHP clientId nowSec ++ "." ++ hmacSig s (encodeHP clientId nowSec)) := by
  constructor
  · simpa [verifySuccessResponse] using mem_extractSecrets env k v
  · intro h
    constructor
    · have hmem := lookupEnv_mem env "SECRET_DATA" (EnvVal.str s) h
      simp only [verifySuccessResponse]
      exact (mem_extractSecrets env "SECRET_DATA" s).mpr ⟨hmem, by decide, by decide⟩
    · simp [verifySuccessResponse, generateJWT, jwtSecretOf, h]

/-- Closed witness for C10 on a concrete environment holding `SECRET_DATA`,
an excluded `AUTHORIZED_CLIENTS` string, a non-string binding and one further
secret. -/
theorem extractSecrets_exact_and_jwt_secret_witness :
    (("API_KEY", "a1")
        ∈ (verifySuccessResponse (fun c n => c ++ "." ++ toString n) (fun sec d => sec ++ "|" ++ d)
            [("SECRET_DATA", EnvVal.str "s1"), ("AUTHORIZED_CLIENTS", EnvVal.str "pk"),
             ("CHALLENGE_STORAGE", EnvVal.binding), ("API_KEY", EnvVal.str "a1")]
            "c1" 5 "tok").secretData
      ↔ ((("API_KEY", EnvVal.str "a1")
            ∈ [("SECRET_DATA", EnvVal.str "s1"), ("AUTHORIZED_CLIENTS", EnvVal.str "pk"),
               ("CHALLENGE_STORAGE", EnvVal.binding), ("API_KEY", EnvVal.str "a1")])
          ∧ "API_KEY" ≠ "AUTHORIZED_CLIENTS" ∧ "API_KEY" ≠ "CHALLENGE_STORAGE"))
    ∧ (("SECRET_DATA", "s1")
        ∈ (verifySuccessResponse (fun c n => c ++ "." ++ toString n) (fun sec d => sec ++ "|" ++ d)
            [("SECRET_DATA", EnvVal.str "s1"), ("AUTHORIZED_CLIENTS", EnvVal.str "pk"),
             ("CHALLENGE_STORAGE", EnvVal.binding), ("API_KEY", EnvVal.str "a1")]
            "c1" 5 "tok").secretData
      ∧ (verifySuccessResponse (fun c n => c ++ "." ++ toString n) (fun sec d => sec ++ "|" ++ d)
            [("SECRET_DATA", EnvVal.str "s1"), ("AUTHORIZED_CLIENTS", EnvVal.str "pk"),
             ("CHALLENGE_STORAGE", EnvVal.binding), ("API_KEY", EnvVal.str "a1")]
            "c1" 5 "tok").token
          = (fun (c : String) (n : Nat) => c ++ "." ++ toString n) "c1" 5 ++ "."
            ++ (fun (sec d : String) => sec ++ "|" ++ d) "s1"
              ((fun (c : String) (n : Nat) => c ++ "." ++ toString n) "c1" 5)) := by
  have h := extractSecrets_exact_and_jwt_secret
    [("SECRET_DATA", EnvVal.str "s1"), ("AUTHORIZED_CLIENTS", EnvVal.str "pk"),
     ("CHALLENGE_STORAGE", EnvVal.binding), ("API_KEY", EnvVal.str "a1")]
    "API_KEY" "a1" "s1" (fun c n => c ++ "." ++ toString n) (fun sec d => sec ++ "|" ++ d)
    "c1" 5 "tok"
  exact ⟨h.1, h.2 rfl⟩

end CloudflareAuthWorker
